import Mathlib

/-!
Verification development for the health-checkup interpretation core
(`hc_core.py`): data model, reference-range resolution, per-item
classification ladders, joint blood-pressure classification, and report
aggregation.  Numeric lab values are modelled as rationals; optional
values as `Option`; Python dicts as functions into `Option`.
-/

/-- Decimal rounding to an integer, ties to even.  Models the rounding used
by Python float formatting (`f"{x:.1f}"`) as applied to exact decimal
values; binary floating-point representation effects are out of scope. -/
def roundHalfEven (x : ℚ) : ℤ :=
  if x - ⌊x⌋ < 1 / 2 then ⌊x⌋
  else if x - ⌊x⌋ > 1 / 2 then ⌊x⌋ + 1
  else if ⌊x⌋ % 2 = 0 then ⌊x⌋ else ⌊x⌋ + 1

/-- `fmt` from hc_core.py with `digits` fixed at its default `1` (the only
arity the core uses).  `None` renders as `"-"`; a rational is always finite,
so the `math.isfinite` guard is always true here; a trailing `".0"` is
stripped exactly as in the source. -/
def fmt (x : Option ℚ) : String :=
  match x with
  | none => "-"
  | some v =>
    let n := roundHalfEven (10 * v)
    let a := n.natAbs
    let s := (if n < 0 then "-" else "") ++ toString (a / 10) ++ "." ++ toString (a % 10)
    if s.endsWith ".0" then s.dropRight 2 else s

/-- `Person` dataclass: age and sex (the source stores sex as the string
`male` or `female`). -/
structure Person where
  age : ℤ
  sex : String

/-- `LabInput` dataclass: optional measured value, optional user-supplied
reference bounds, unit label.  All fields default as in the source. -/
structure LabInput where
  value : Option ℚ := none
  ref_low : Option ℚ := none
  ref_high : Option ℚ := none
  unit : String := ""

/-- `ItemResult` dataclass from hc_core.py. -/
structure ItemResult where
  key : String
  name_ko : String
  value : Option ℚ
  unit : String
  status : String
  short : String
  easy_explain : String
  possible_causes : List String
  next_steps : List String
  warnings : List String
  evidence : List String

/-- `LAB_KEYS` list from hc_core.py (includes the two blood-pressure
reading keys `sbp` and `dbp`). -/
def LAB_KEYS : List String :=
  ["fasting_glucose", "hba1c", "total_chol", "ldl", "hdl", "tg",
   "ast", "alt", "ggt", "creatinine", "egfr", "uric_acid", "sbp", "dbp"]

/-- `DISPLAY_NAMES_KO` dict, modelled as a partial lookup function. -/
def DISPLAY_NAMES_KO : String → Option String := fun k =>
  if k = "fasting_glucose" then some "공복혈당"
  else if k = "hba1c" then some "당화혈색소(HbA1c)"
  else if k = "total_chol" then some "총콜레스테롤"
  else if k = "ldl" then some "LDL 콜레스테롤"
  else if k = "hdl" then some "HDL 콜레스테롤"
  else if k = "tg" then some "중성지방(TG)"
  else if k = "ast" then some "AST(GOT)"
  else if k = "alt" then some "ALT(GPT)"
  else if k = "ggt" then some "감마지티피(GGT)"
  else if k = "creatinine" then some "크레아티닌"
  else if k = "egfr" then some "eGFR(추정사구체여과율)"
  else if k = "uric_acid" then some "요산"
  else if k = "sbp" then some "수축기혈압(SBP)"
  else if k = "dbp" then some "이완기혈압(DBP)"
  else if k = "bp" then some "혈압"
  else none

/-- `UNITS_DEFAULT` dict, modelled as a partial lookup function. -/
def UNITS_DEFAULT : String → Option String := fun k =>
  if k = "fasting_glucose" then some "mg/dL"
  else if k = "hba1c" then some "%"
  else if k = "total_chol" then some "mg/dL"
  else if k = "ldl" then some "mg/dL"
  else if k = "hdl" then some "mg/dL"
  else if k = "tg" then some "mg/dL"
  else if k = "ast" then some "U/L"
  else if k = "alt" then some "U/L"
  else if k = "ggt" then some "U/L"
  else if k = "creatinine" then some "mg/dL"
  else if k = "egfr" then some "mL/min/1.73m²"
  else if k = "uric_acid" then some "mg/dL"
  else if k = "sbp" then some "mmHg"
  else if k = "dbp" then some "mmHg"
  else none

/-- `RefRange` dataclass: optional low/high bounds plus a unit label. -/
structure RefRange where
  low : Option ℚ := none
  high : Option ℚ := none
  unit : String := ""

/-- `RefRange.classify` from hc_core.py.  The Python guard
`self.low is not None and value < self.low` is the `Option.any` test. -/
def RefRange.classify (r : RefRange) (value : ℚ) : String :=
  if r.low.any (fun lo => value < lo) then "low"
  else if r.high.any (fun hi => value > hi) then "high"
  else if r.low = none ∧ r.high = none then "unknown"
  else "normal"

/-- `DEFAULT_RANGES` dict, modelled as a partial lookup function. -/
def DEFAULT_RANGES : String → Option RefRange := fun k =>
  if k = "fasting_glucose" then some { low := some 70, high := some 99, unit := "mg/dL" }
  else if k = "hba1c" then some { low := some 4.0, high := some 5.6, unit := "%" }
  else if k = "total_chol" then some { low := none, high := some 199, unit := "mg/dL" }
  else if k = "ldl" then some { low := none, high := some 129, unit := "mg/dL" }
  else if k = "hdl_male" then some { low := some 40, high := none, unit := "mg/dL" }
  else if k = "hdl_female" then some { low := some 50, high := none, unit := "mg/dL" }
  else if k = "tg" then some { low := none, high := some 149, unit := "mg/dL" }
  else if k = "ast" then some { low := none, high := some 40, unit := "U/L" }
  else if k = "alt" then some { low := none, high := some 40, unit := "U/L" }
  else if k = "ggt_male" then some { low := none, high := some 60, unit := "U/L" }
  else if k = "ggt_female" then some { low := none, high := some 40, unit := "U/L" }
  else if k = "creatinine_male" then some { low := some 0.74, high := some 1.35, unit := "mg/dL" }
  else if k = "creatinine_female" then some { low := some 0.59, high := some 1.04, unit := "mg/dL" }
  else if k = "egfr" then some { low := some 90, high := none, unit := "mL/min/1.73m²" }
  else if k = "uric_male" then some { low := some 3.4, high := some 7.0, unit := "mg/dL" }
  else if k = "uric_female" then some { low := some 2.4, high := some 6.0, unit := "mg/dL" }
  else none

/-- `get_default_ref` from hc_core.py.  The direct dict subscripts in the
source (`DEFAULT_RANGES["hdl_male"]` etc.) are on keys that are always
present, so the `getD` default is never reached. -/
def get_default_ref (key : String) (p : Person) : RefRange :=
  if key = "hdl" then
    (if p.sex = "male" then (DEFAULT_RANGES "hdl_male").getD {}
     else (DEFAULT_RANGES "hdl_female").getD {})
  else if key = "ggt" then
    (if p.sex = "male" then (DEFAULT_RANGES "ggt_male").getD {}
     else (DEFAULT_RANGES "ggt_female").getD {})
  else if key = "creatinine" then
    (if p.sex = "male" then (DEFAULT_RANGES "creatinine_male").getD {}
     else (DEFAULT_RANGES "creatinine_female").getD {})
  else if key = "uric_acid" then
    (if p.sex = "male" then (DEFAULT_RANGES "uric_male").getD {}
     else (DEFAULT_RANGES "uric_female").getD {})
  else
    (DEFAULT_RANGES key).getD { unit := (UNITS_DEFAULT key).getD "" }

/-- `classify_with_ref` from hc_core.py: per-bound merge of user-supplied
bounds over the default range, then baseline classification. -/
def classify_with_ref (value : ℚ) (li : LabInput) (rr : RefRange) : String × RefRange :=
  let low := match li.ref_low with | some x => some x | none => rr.low
  let high := match li.ref_high with | some x => some x | none => rr.high
  let rr2 : RefRange := { low := low, high := high, unit := rr.unit }
  (rr2.classify value, rr2)

/-- `bp_status` from hc_core.py: the joint two-value decision table,
top-down, first match wins. -/
def bp_status (sbp dbp : ℚ) : String × String :=
  if sbp ≥ 180 ∨ dbp ≥ 120 then
    ("critical", "혈압이 매우 높아 즉시 의료진 평가가 필요할 수 있습니다.")
  else if sbp ≥ 140 ∨ dbp ≥ 90 then
    ("high", "혈압이 높은 범주(일반 기준에서 2단계)에 해당할 수 있습니다.")
  else if (130 ≤ sbp ∧ sbp ≤ 139) ∨ (80 ≤ dbp ∧ dbp ≤ 89) then
    ("borderline", "혈압이 높은 범주(일반 기준에서 1단계)에 해당할 수 있습니다.")
  else if (120 ≤ sbp ∧ sbp ≤ 129) ∧ dbp < 80 then
    ("borderline", "혈압이 정상보다 약간 높은 범주(상승)에 해당할 수 있습니다.")
  else
    ("normal", "혈압이 일반적인 정상 범주에 해당합니다.")

/-- The inline Python conditional expression rendering a baseline
classification as a Korean word (it appears verbatim in four branches of
`interpret`). -/
def statusWordKo (cls : String) : String :=
  if cls = "normal" then "정상"
  else if cls = "high" then "높음"
  else if cls = "low" then "낮음"
  else "판단불가"

/-- The generic range-classification one-liner shared by several branches
of `interpret`. -/
def genericShort (name cls : String) : String :=
  name ++ "이(가) 참고치 기준으로 \x27" ++ statusWordKo cls ++ "\x27 범주입니다."

/-- The `fasting_glucose` branch of `interpret` (hc_core.py lines 219-241). -/
def interpret_fasting_glucose (key name : String) (v : ℚ) (cls : String)
    (ev : List String) (unit : String) : ItemResult :=
  let explain := "공복혈당은 공복 상태의 혈당을 보는 지표예요. 단 한 번의 수치만으로 질병을 확정하진 않습니다."
  let baseSteps := ["최근 식사/운동/수면/스트레스가 영향을 줄 수 있어요."]
  let warns := ["진단을 확정하지 않습니다. 의료진 상담이 필요합니다."]
  if v ≥ 126 then
    { key := key, name_ko := name, value := some v, unit := unit, status := "high",
      short := name ++ "이 126 이상으로 높게 측정되었습니다(단회 측정만으로 확진하지 않음).",
      easy_explain := explain,
      possible_causes := ["당 대사 이상 가능성", "컨디션/약물/스트레스 영향"],
      next_steps := baseSteps ++ ["재검 또는 HbA1c 등 추가 확인을 의료진과 상의하세요."],
      warnings := warns, evidence := ev }
  else if 100 ≤ v ∧ v ≤ 125 then
    { key := key, name_ko := name, value := some v, unit := unit, status := "borderline",
      short := name ++ "이 100~125 범주로 경계(상승)일 수 있습니다.",
      easy_explain := explain,
      possible_causes := ["체중 증가/운동 부족", "탄수화물 섭취 패턴", "수면 부족"],
      next_steps := baseSteps ++ ["식습관 조정, 운동(유산소+근력), 1~3개월 후 재검을 고려하세요."],
      warnings := warns, evidence := ev }
  else if v < 70 then
    { key := key, name_ko := name, value := some v, unit := unit, status := "low",
      short := name ++ "이 낮게 측정되었습니다.",
      easy_explain := explain,
      possible_causes := ["공복 시간 과도", "일부 약물 영향", "컨디션 영향"],
      next_steps := baseSteps ++ ["저혈당 증상이 있으면 의료진과 상담하세요."],
      warnings := warns, evidence := ev }
  else
    { key := key, name_ko := name, value := some v, unit := unit, status := cls,
      short := genericShort name cls, easy_explain := explain,
      possible_causes := [], next_steps := baseSteps,
      warnings := warns, evidence := ev }

/-- The `hba1c` branch of `interpret` (hc_core.py lines 243-259). -/
def interpret_hba1c (key name : String) (v : ℚ) (cls : String)
    (ev : List String) (unit : String) : ItemResult :=
  let explain := "HbA1c는 최근 2~3개월 평균 혈당 상태를 간접적으로 보여주는 지표예요."
  let baseSteps := ["추세를 보는 데 유리합니다."]
  let warns := ["진단을 확정하지 않습니다. 의료진과 상의하세요."]
  if v ≥ 6.5 then
    { key := key, name_ko := name, value := some v, unit := unit, status := "high",
      short := name ++ "이 6.5 이상으로 높게 측정되었습니다(확진은 의료진 판단).",
      easy_explain := explain,
      possible_causes := ["혈당 조절 문제 가능성"],
      next_steps := baseSteps ++ ["공복혈당/추가검사를 의료진과 상의하세요."],
      warnings := warns, evidence := ev }
  else if 5.7 ≤ v ∧ v ≤ 6.4 then
    { key := key, name_ko := name, value := some v, unit := unit, status := "borderline",
      short := name ++ "이 5.7~6.4 범주로 경계(상승)일 수 있습니다.",
      easy_explain := explain,
      possible_causes := ["체중/활동량/식습관 영향"],
      next_steps := baseSteps ++ ["식사/운동/체중 관리 후 3개월 내 재검을 고려하세요."],
      warnings := warns, evidence := ev }
  else
    { key := key, name_ko := name, value := some v, unit := unit, status := cls,
      short := genericShort name cls, easy_explain := explain,
      possible_causes := [], next_steps := baseSteps,
      warnings := warns, evidence := ev }

/-- The `ast`/`alt`/`ggt` branch of `interpret` (hc_core.py lines 262-291).
`ul` is the effective upper bound `rr2.high` read in the source. -/
def interpret_liver (key name : String) (v : ℚ) (cls : String) (ul : Option ℚ)
    (ev : List String) (unit : String) : ItemResult :=
  let explain := name ++ "는 간/담도계 또는 일부 근육 손상 등과 연관될 수 있는 효소 지표예요. 패턴과 추적이 중요합니다."
  let baseSteps := ["최근 음주, 격한 운동, 약물/보충제 복용 여부를 함께 확인하세요."]
  let warns := ["지속 상승하거나 증상이 동반되면 의료진 상담이 필요합니다."]
  match ul with
  | some u =>
    if v ≥ 5 * u then
      { key := key, name_ko := name, value := some v, unit := unit, status := "high",
        short := name ++ "이 참고치 상한의 5배 이상으로 크게 상승했습니다.",
        easy_explain := explain,
        possible_causes := ["급성 간손상 가능성(여러 원인 가능)", "약물/바이러스/알코올 등"],
        next_steps := baseSteps ++ ["빠르게 의료진 상담/재검을 권합니다."],
        warnings := warns, evidence := ev }
    else if v ≥ 2 * u then
      { key := key, name_ko := name, value := some v, unit := unit, status := "high",
        short := name ++ "이 참고치 상한의 2배 이상으로 상승했습니다.",
        easy_explain := explain,
        possible_causes := ["지방간/음주/약물/바이러스 등"],
        next_steps := baseSteps ++ ["의료진과 원인 평가를 고려하세요."],
        warnings := warns, evidence := ev }
    else if v > u then
      { key := key, name_ko := name, value := some v, unit := unit, status := "borderline",
        short := name ++ "이 참고치 상한을 약간 초과했습니다.",
        easy_explain := explain,
        possible_causes := ["일시적 상승(음주/운동/약물)", "지방간 등"],
        next_steps := baseSteps ++ ["2~8주 후 재검을 고려하세요."],
        warnings := warns, evidence := ev }
    else
      { key := key, name_ko := name, value := some v, unit := unit, status := cls,
        short := name ++ "이 참고치 범위에 있습니다.",
        easy_explain := explain,
        possible_causes := [], next_steps := baseSteps,
        warnings := warns, evidence := ev }
  | none =>
    { key := key, name_ko := name, value := some v, unit := unit, status := cls,
      short := genericShort name cls, easy_explain := explain,
      possible_causes := [], next_steps := baseSteps,
      warnings := warns, evidence := ev }

/-- The `egfr` branch of `interpret` (hc_core.py lines 293-317).  Note it
never reads the resolved range: the status is a pure function of `v`. -/
def interpret_egfr (key name : String) (v : ℚ)
    (ev : List String) (unit : String) : ItemResult :=
  let explain := "eGFR은 신장이 혈액을 걸러내는 능력을 추정한 값이에요. 낮을수록 신장 기능 저하 가능성을 시사할 수 있습니다."
  let baseSteps := ["크레아티닌, 소변검사, 혈압/혈당 등과 함께 종합 해석합니다."]
  let warns := ["연령/근육량 등에 따라 해석이 달라질 수 있습니다."]
  if v < 30 then
    { key := key, name_ko := name, value := some v, unit := unit, status := "high",
      short := name ++ "이 30 미만으로 낮습니다. 빠른 의료진 평가가 필요할 수 있습니다.",
      easy_explain := explain,
      possible_causes := ["신장 기능 저하 가능성"],
      next_steps := baseSteps ++ ["가급적 빨리 의료진 상담을 권합니다."],
      warnings := warns, evidence := ev }
  else if 30 ≤ v ∧ v < 60 then
    { key := key, name_ko := name, value := some v, unit := unit, status := "high",
      short := name ++ "이 30~59 범주로 낮습니다. 추가 평가가 필요할 수 있습니다.",
      easy_explain := explain,
      possible_causes := ["신장 기능 저하 가능성", "만성질환 영향"],
      next_steps := baseSteps ++ ["의료진과 상담하여 추적 계획을 세우세요."],
      warnings := warns, evidence := ev }
  else if 60 ≤ v ∧ v < 90 then
    { key := key, name_ko := name, value := some v, unit := unit, status := "borderline",
      short := name ++ "이 60~89 범주로 다소 낮을 수 있습니다.",
      easy_explain := explain,
      possible_causes := ["연령/체격/수분 상태 영향", "초기 변화 가능성"],
      next_steps := baseSteps ++ ["생활습관 점검 후 추적을 고려하세요."],
      warnings := warns, evidence := ev }
  else
    { key := key, name_ko := name, value := some v, unit := unit, status := "normal",
      short := name ++ "이 90 이상으로 일반적인 정상 범주입니다.",
      easy_explain := explain,
      possible_causes := [], next_steps := baseSteps,
      warnings := warns, evidence := ev }

/-- The default simple-classification tail of `interpret`
(hc_core.py lines 320-327). -/
def interpret_default (key name : String) (v : ℚ) (cls : String)
    (ev : List String) (unit : String) : ItemResult :=
  { key := key, name_ko := name, value := some v, unit := unit, status := cls,
    short := genericShort name cls,
    easy_explain := "이 항목은 입력된 수치와 참고치 기준으로 분류했습니다.",
    possible_causes := [],
    next_steps := ["해당 항목은 개인 병력/증상과 함께 종합 해석하는 것이 좋아요."],
    warnings := ["진단을 확정하지 않습니다. 필요 시 의료진 상담을 권합니다."],
    evidence := ev }

/-- One iteration of the lab loop of `interpret` (hc_core.py lines 201-327):
the full classification of a single lab item, dispatching on the item key
exactly as the source's if/elif chain does. -/
def classify_item (key : String) (li : LabInput) (person : Person) : ItemResult :=
  let unit := if li.unit = "" then (UNITS_DEFAULT key).getD "" else li.unit
  match li.value with
  | none =>
    { key := key, name_ko := (DISPLAY_NAMES_KO key).getD key, value := none, unit := unit,
      status := "unknown", short := "입력값이 없습니다.",
      easy_explain := "수치가 있어야 해석할 수 있어요.",
      possible_causes := [], next_steps := ["검진표의 해당 수치를 입력하세요."],
      warnings := [], evidence := [] }
  | some v =>
    let rr := get_default_ref key person
    let cr := classify_with_ref v li rr
    let cls := cr.1
    let rr2 := cr.2
    let ev : List String :=
      if rr2.low.isSome ∨ rr2.high.isSome then
        [("참고치(기본/입력 기반): " ++ fmt rr2.low ++ " ~ " ++ fmt rr2.high ++ " " ++ unit).trim]
      else []
    let name := (DISPLAY_NAMES_KO key).getD key
    if key = "fasting_glucose" then interpret_fasting_glucose key name v cls ev unit
    else if key = "hba1c" then interpret_hba1c key name v cls ev unit
    else if key = "ast" ∨ key = "alt" ∨ key = "ggt" then
      interpret_liver key name v cls rr2.high ev unit
    else if key = "egfr" then interpret_egfr key name v ev unit
    else interpret_default key name v cls ev unit

/-- The blood-pressure block of `interpret` (hc_core.py lines 330-341): the
source emits the unknown item when either reading is absent, else the
`bp_status` result; both branches carry value `None` and unit `mmHg`. -/
def bp_item (labs : String → Option LabInput) : ItemResult :=
  match ((labs "sbp").getD {}).value, ((labs "dbp").getD {}).value with
  | some sbp, some dbp =>
    let st := bp_status sbp dbp
    { key := "bp", name_ko := (DISPLAY_NAMES_KO "bp").getD "bp", value := none, unit := "mmHg",
      status := st.1, short := st.2,
      easy_explain := "혈압은 측정 환경(긴장, 카페인, 운동 직후) 영향을 크게 받아요. 반복 측정 평균이 중요합니다.",
      possible_causes := ["스트레스/수면 부족", "체중 증가", "염분 섭취", "카페인/음주"],
      next_steps := ["집에서 아침/저녁 1~2주 측정해 평균을 보세요.", "염분 줄이기, 체중/운동 관리가 도움이 됩니다."],
      warnings := ["가슴통증/호흡곤란/신경학적 증상 동반 시 즉시 진료가 필요할 수 있습니다."],
      evidence := ["일반적 혈압 범주(진단 아님)"] }
  | _, _ =>
    { key := "bp", name_ko := (DISPLAY_NAMES_KO "bp").getD "bp", value := none, unit := "mmHg",
      status := "unknown", short := "혈압 입력값이 부족합니다.",
      easy_explain := "SBP/DBP가 모두 있어야 해석할 수 있어요.",
      possible_causes := [], next_steps := ["SBP/DBP를 입력하세요(예: 120/80)."],
      warnings := [], evidence := ["일반적 혈압 범주(진단 아님)"] }

/-- The literal key list of the lab loop in `interpret` (hc_core.py line
201): `LAB_KEYS` without the two blood-pressure reading keys. -/
def ITEM_KEYS : List String :=
  ["fasting_glucose", "hba1c", "total_chol", "ldl", "hdl", "tg",
   "ast", "alt", "ggt", "creatinine", "egfr", "uric_acid"]

/-- `interpret` from hc_core.py: one result per lab-loop key (a missing
dict entry defaults to an empty `LabInput`, as `labs.get(key, LabInput())`
does), then the synthetic `bp` item appended last. -/
def interpret (person : Person) (labs : String → Option LabInput) : List ItemResult :=
  ITEM_KEYS.map (fun key => classify_item key ((labs key).getD {}) person) ++ [bp_item labs]

/-- The report dict returned by `make_report`. -/
structure Report where
  person : Person
  summary : List String
  disclaimer : List String

/-- `make_report` from hc_core.py: severity bucketing and summary-line
construction.  The source builds `summary` by conditional header+loop
appends; each such block is the `if … then header :: lines else []`
concatenation here, and the final all-clear append is the trailing
conditional. -/
def make_report (person : Person) (results : List ItemResult) : Report :=
  let critical := results.filter (fun r => r.status = "critical")
  let high := results.filter (fun r => r.status = "high")
  let borderline := results.filter (fun r => r.status = "borderline" ∨ r.status = "low")
  let summary : List String :=
    (if critical.isEmpty then []
     else
      "⚠️ **즉시 확인이 필요한 신호가 있을 수 있습니다.**"
        :: critical.map (fun r => "- " ++ r.name_ko ++ " (" ++ r.status ++ ")"))
    ++ (if high.isEmpty then []
     else
      "🔶 **높은 범주로 분류된 항목**"
        :: high.map (fun r => "- " ++ r.name_ko ++ ": " ++ fmt r.value ++ " " ++ r.unit))
    ++ (if borderline.isEmpty then []
     else
      "🟡 **경계/낮음 범주 항목**"
        :: borderline.map
            (fun r => "- " ++ r.name_ko ++ ": " ++ fmt r.value ++ " " ++ r.unit
                        ++ " (" ++ r.status ++ ")"))
  let summary :=
    if critical.isEmpty ∧ high.isEmpty ∧ borderline.isEmpty then
      summary ++ ["✅ **입력된 항목 기준으로 크게 벗어난 신호가 없어 보입니다.** (단, 참고치/개인 상황에 따라 달라질 수 있음)"]
    else summary
  { person := person, summary := summary,
    disclaimer :=
      ["이 결과는 **의료행위(진단/처방)**가 아니라, 입력된 수치/참고치 기반 **정보 제공용 설명**입니다.",
       "증상이 있거나 수치가 걱정되면 **의료진과 상담**하세요.",
       "검사기관/개인 상태에 따라 참고치와 해석이 달라질 수 있습니다."] }

/-- One summary section of the aggregation contract, as the spec words it
(sections 4.4 and 8): an empty bucket emits nothing, a non-empty bucket
emits its header line followed by one line per item. -/
def sectionLines (bucket : List ItemResult) (header : String)
    (line : ItemResult → String) : List String :=
  if bucket.isEmpty then [] else header :: bucket.map line

/-- Spec-side formulation of the summary contract, written from the spec's
words: partition by status into critical / high / borderline-or-low; if all
three buckets are empty the summary is the single reassuring line; else the
three sections in fixed order, each omitted when empty. -/
def summarySpec (results : List ItemResult) : List String :=
  let crit := results.filter (fun r => r.status = "critical")
  let hi := results.filter (fun r => r.status = "high")
  let bl := results.filter (fun r => r.status = "borderline" ∨ r.status = "low")
  if crit.isEmpty ∧ hi.isEmpty ∧ bl.isEmpty then
    ["✅ **입력된 항목 기준으로 크게 벗어난 신호가 없어 보입니다.** (단, 참고치/개인 상황에 따라 달라질 수 있음)"]
  else
    sectionLines crit "⚠️ **즉시 확인이 필요한 신호가 있을 수 있습니다.**"
      (fun r => "- " ++ r.name_ko ++ " (" ++ r.status ++ ")")
    ++ sectionLines hi "🔶 **높은 범주로 분류된 항목**"
      (fun r => "- " ++ r.name_ko ++ ": " ++ fmt r.value ++ " " ++ r.unit)
    ++ sectionLines bl "🟡 **경계/낮음 범주 항목**"
      (fun r => "- " ++ r.name_ko ++ ": " ++ fmt r.value ++ " " ++ r.unit
                  ++ " (" ++ r.status ++ ")")

/-! ### Helper lemmas -/

lemma fg_status (key name : String) (v : ℚ) (cls : String) (ev : List String)
    (unit : String) :
    (interpret_fasting_glucose key name v cls ev unit).status =
      (if v ≥ 126 then "high" else if 100 ≤ v ∧ v ≤ 125 then "borderline"
       else if v < 70 then "low" else cls) := by
  unfold interpret_fasting_glucose
  dsimp only
  split_ifs <;> rfl

lemma fg_key (key name : String) (v : ℚ) (cls : String) (ev : List String)
    (unit : String) :
    (interpret_fasting_glucose key name v cls ev unit).key = key := by
  unfold interpret_fasting_glucose
  dsimp only
  split_ifs <;> rfl

lemma hba1c_key (key name : String) (v : ℚ) (cls : String) (ev : List String)
    (unit : String) :
    (interpret_hba1c key name v cls ev unit).key = key := by
  unfold interpret_hba1c
  dsimp only
  split_ifs <;> rfl

lemma liver_status_some (key name : String) (v : ℚ) (cls : String) (u : ℚ)
    (ev : List String) (unit : String) :
    (interpret_liver key name v cls (some u) ev unit).status =
      (if v ≥ 5 * u then "high" else if v ≥ 2 * u then "high"
       else if v > u then "borderline" else cls) := by
  unfold interpret_liver
  dsimp only
  split_ifs <;> rfl

lemma liver_short_some (key name : String) (v : ℚ) (cls : String) (u : ℚ)
    (ev : List String) (unit : String) :
    (interpret_liver key name v cls (some u) ev unit).short =
      (if v ≥ 5 * u then name ++ "이 참고치 상한의 5배 이상으로 크게 상승했습니다."
       else if v ≥ 2 * u then name ++ "이 참고치 상한의 2배 이상으로 상승했습니다."
       else if v > u then name ++ "이 참고치 상한을 약간 초과했습니다."
       else name ++ "이 참고치 범위에 있습니다.") := by
  unfold interpret_liver
  dsimp only
  split_ifs <;> rfl

lemma liver_causes_some (key name : String) (v : ℚ) (cls : String) (u : ℚ)
    (ev : List String) (unit : String) :
    (interpret_liver key name v cls (some u) ev unit).possible_causes =
      (if v ≥ 5 * u then ["급성 간손상 가능성(여러 원인 가능)", "약물/바이러스/알코올 등"]
       else if v ≥ 2 * u then ["지방간/음주/약물/바이러스 등"]
       else if v > u then ["일시적 상승(음주/운동/약물)", "지방간 등"]
       else []) := by
  unfold interpret_liver
  dsimp only
  split_ifs <;> rfl

lemma liver_status_none (key name : String) (v : ℚ) (cls : String)
    (ev : List String) (unit : String) :
    (interpret_liver key name v cls none ev unit).status = cls := rfl

lemma liver_short_none (key name : String) (v : ℚ) (cls : String)
    (ev : List String) (unit : String) :
    (interpret_liver key name v cls none ev unit).short = genericShort name cls := rfl

lemma liver_key (key name : String) (v : ℚ) (cls : String) (ul : Option ℚ)
    (ev : List String) (unit : String) :
    (interpret_liver key name v cls ul ev unit).key = key := by
  cases ul with
  | none => rfl
  | some u =>
    unfold interpret_liver
    dsimp only
    split_ifs <;> rfl

lemma egfr_status (key name : String) (v : ℚ) (ev : List String) (unit : String) :
    (interpret_egfr key name v ev unit).status =
      (if v < 30 then "high" else if 30 ≤ v ∧ v < 60 then "high"
       else if 60 ≤ v ∧ v < 90 then "borderline" else "normal") := by
  unfold interpret_egfr
  dsimp only
  split_ifs <;> rfl

lemma egfr_key (key name : String) (v : ℚ) (ev : List String) (unit : String) :
    (interpret_egfr key name v ev unit).key = key := by
  unfold interpret_egfr
  dsimp only
  split_ifs <;> rfl

lemma classify_item_key (key : String) (li : LabInput) (p : Person) :
    (classify_item key li p).key = key := by
  rcases li with ⟨val, rl, rh, u⟩
  cases val with
  | none => rfl
  | some v =>
    simp only [classify_item]
    split_ifs <;>
      simp [fg_key, hba1c_key, liver_key, egfr_key, interpret_default]

lemma bp_item_key (labs : String → Option LabInput) : (bp_item labs).key = "bp" := by
  unfold bp_item
  cases ((labs "sbp").getD {}).value <;> cases ((labs "dbp").getD {}).value <;> rfl

lemma bp_item_value (labs : String → Option LabInput) : (bp_item labs).value = none := by
  unfold bp_item
  cases ((labs "sbp").getD {}).value <;> cases ((labs "dbp").getD {}).value <;> rfl

lemma bp_item_unit (labs : String → Option LabInput) : (bp_item labs).unit = "mmHg" := by
  unfold bp_item
  cases ((labs "sbp").getD {}).value <;> cases ((labs "dbp").getD {}).value <;> rfl

lemma interpret_keys (p : Person) (labs : String → Option LabInput) :
    (interpret p labs).map ItemResult.key = ITEM_KEYS ++ ["bp"] := by
  simp [interpret, ITEM_KEYS, classify_item_key, bp_item_key]

lemma interpret_getLast (p : Person) (labs : String → Option LabInput) :
    (interpret p labs).getLast? = some (bp_item labs) := by
  simp [interpret]

lemma classify_item_fg_dispatch (rl rh : Option ℚ) (u : String) (v : ℚ) (p : Person) :
    ∃ ev unit, classify_item "fasting_glucose" ⟨some v, rl, rh, u⟩ p =
      interpret_fasting_glucose "fasting_glucose"
        ((DISPLAY_NAMES_KO "fasting_glucose").getD "fasting_glucose") v
        (classify_with_ref v ⟨some v, rl, rh, u⟩ (get_default_ref "fasting_glucose" p)).1
        ev unit :=
  ⟨_, _, rfl⟩

lemma classify_item_liver_dispatch (key : String)
    (hk : key = "ast" ∨ key = "alt" ∨ key = "ggt")
    (rl rh : Option ℚ) (u : String) (v : ℚ) (p : Person) :
    ∃ ev unit, classify_item key ⟨some v, rl, rh, u⟩ p =
      interpret_liver key ((DISPLAY_NAMES_KO key).getD key) v
        (classify_with_ref v ⟨some v, rl, rh, u⟩ (get_default_ref key p)).1
        (classify_with_ref v ⟨some v, rl, rh, u⟩ (get_default_ref key p)).2.high
        ev unit := by
  rcases hk with h | h | h <;> subst h <;> exact ⟨_, _, rfl⟩

lemma classify_item_egfr_dispatch (rl rh : Option ℚ) (u : String) (v : ℚ) (p : Person) :
    ∃ ev unit, classify_item "egfr" ⟨some v, rl, rh, u⟩ p =
      interpret_egfr "egfr" ((DISPLAY_NAMES_KO "egfr").getD "egfr") v ev unit :=
  ⟨_, _, rfl⟩

/-! ### Claims -/

/-- Claim C1: for every eGFR value `v`, the status of the `egfr` item is
determined solely by the fixed absolute thresholds (`v < 30` high,
`30 ≤ v < 60` high, `60 ≤ v < 90` borderline, else normal), and two runs
that agree on the value but differ arbitrarily in supplied reference
bounds (and person) produce the same eGFR status. -/
theorem C1_egfr_fixed_thresholds (li li2 : LabInput) (v : ℚ) (p p2 : Person)
    (hv : li.value = some v) (hv2 : li2.value = some v) :
    (classify_item "egfr" li p).status =
      (if v < 30 then "high" else if 30 ≤ v ∧ v < 60 then "high"
       else if 60 ≤ v ∧ v < 90 then "borderline" else "normal") ∧
    (classify_item "egfr" li p).status = (classify_item "egfr" li2 p2).status := by
  obtain ⟨val, rl, rh, u⟩ := li
  obtain ⟨val2, rl2, rh2, u2⟩ := li2
  dsimp only at hv hv2
  subst hv
  subst hv2
  obtain ⟨ev, un, hd⟩ := classify_item_egfr_dispatch rl rh u v p
  obtain ⟨ev2, un2, hd2⟩ := classify_item_egfr_dispatch rl2 rh2 u2 v p2
  rw [hd, hd2, egfr_status, egfr_status]
  exact ⟨rfl, rfl⟩

/-- Witness for C1 at value 59: status is `high` under the default range and
identical under a run with user-supplied bounds and a different person. -/
theorem C1_egfr_fixed_thresholds_witness :
    (classify_item "egfr" { value := some 59 } { age := 30, sex := "male" }).status = "high" ∧
    (classify_item "egfr" { value := some 59 } { age := 30, sex := "male" }).status =
      (classify_item "egfr" { value := some 59, ref_low := some 0, ref_high := some 500 }
        { age := 70, sex := "female" }).status := by
  have h := C1_egfr_fixed_thresholds { value := some 59 }
      { value := some 59, ref_low := some 0, ref_high := some 500 } 59
      { age := 30, sex := "male" } { age := 70, sex := "female" } rfl rfl
  refine ⟨?_, h.2⟩
  rw [h.1]
  decide

/-- Claim C2: for AST/ALT/GGT, when the effective (merged) range has an
upper bound `ul` the status and text follow the most-severe-first ladder
(`v ≥ 5ul` high severe tier, `v ≥ 2ul` high moderate tier with distinct
causes, `v > ul` borderline, else the baseline range status with in-range
text); when no upper bound is resolvable, the plain range classification
text is used. -/
theorem C2_liver_ladder (key : String) (hk : key = "ast" ∨ key = "alt" ∨ key = "ggt")
    (li : LabInput) (v : ℚ) (p : Person) (hv : li.value = some v) :
    (∀ ul, (classify_with_ref v li (get_default_ref key p)).2.high = some ul →
      (classify_item key li p).status =
        (if v ≥ 5 * ul then "high" else if v ≥ 2 * ul then "high"
         else if v > ul then "borderline"
         else (classify_with_ref v li (get_default_ref key p)).1) ∧
      (classify_item key li p).short =
        (if v ≥ 5 * ul then
          (DISPLAY_NAMES_KO key).getD key ++ "이 참고치 상한의 5배 이상으로 크게 상승했습니다."
         else if v ≥ 2 * ul then
          (DISPLAY_NAMES_KO key).getD key ++ "이 참고치 상한의 2배 이상으로 상승했습니다."
         else if v > ul then
          (DISPLAY_NAMES_KO key).getD key ++ "이 참고치 상한을 약간 초과했습니다."
         else (DISPLAY_NAMES_KO key).getD key ++ "이 참고치 범위에 있습니다.") ∧
      (classify_item key li p).possible_causes =
        (if v ≥ 5 * ul then ["급성 간손상 가능성(여러 원인 가능)", "약물/바이러스/알코올 등"]
         else if v ≥ 2 * ul then ["지방간/음주/약물/바이러스 등"]
         else if v > ul then ["일시적 상승(음주/운동/약물)", "지방간 등"]
         else [])) ∧
    ((classify_with_ref v li (get_default_ref key p)).2.high = none →
      (classify_item key li p).status = (classify_with_ref v li (get_default_ref key p)).1 ∧
      (classify_item key li p).short =
        genericShort ((DISPLAY_NAMES_KO key).getD key)
          ((classify_with_ref v li (get_default_ref key p)).1)) := by
  obtain ⟨val, rl, rh, u⟩ := li
  dsimp only at hv
  subst hv
  obtain ⟨ev, un, hd⟩ := classify_item_liver_dispatch key hk rl rh u v p
  rw [hd]
  constructor
  · intro ul hul
    rw [hul, liver_status_some, liver_short_some, liver_causes_some]
    exact ⟨rfl, rfl, rfl⟩
  · intro hnone
    rw [hnone]
    exact ⟨liver_status_none _ _ _ _ _ _, liver_short_none _ _ _ _ _ _⟩

/-- Witness for C2 on AST with the default upper bound 40: 200 is high
(severe tier), 81 is high (moderate tier, different short text), 41 is
borderline, 40 is normal. -/
theorem C2_liver_ladder_witness :
    (classify_item "ast" { value := some 200 } { age := 30, sex := "male" }).status = "high" ∧
    (classify_item "ast" { value := some 81 } { age := 30, sex := "male" }).status = "high" ∧
    (classify_item "ast" { value := some 200 } { age := 30, sex := "male" }).short ≠
      (classify_item "ast" { value := some 81 } { age := 30, sex := "male" }).short ∧
    (classify_item "ast" { value := some 41 } { age := 30, sex := "male" }).status = "borderline" ∧
    (classify_item "ast" { value := some 40 } { age := 30, sex := "male" }).status = "normal" := by
  have h200 := (C2_liver_ladder "ast" (Or.inl rfl) { value := some 200 } 200
      { age := 30, sex := "male" } rfl).1 40 rfl
  have h81 := (C2_liver_ladder "ast" (Or.inl rfl) { value := some 81 } 81
      { age := 30, sex := "male" } rfl).1 40 rfl
  have h41 := (C2_liver_ladder "ast" (Or.inl rfl) { value := some 41 } 41
      { age := 30, sex := "male" } rfl).1 40 rfl
  have h40 := (C2_liver_ladder "ast" (Or.inl rfl) { value := some 40 } 40
      { age := 30, sex := "male" } rfl).1 40 rfl
  refine ⟨?_, ?_, ?_, ?_, ?_⟩
  · rw [h200.1]; norm_num
  · rw [h81.1]; norm_num
  · rw [h200.2.1, h81.2.1]
    norm_num
    decide
  · rw [h41.1]; norm_num
  · rw [h40.1]
    norm_num
    decide

/-- Claim C3: the blood-pressure status is the first matching row of the
joint decision table evaluated top-down (critical, high, borderline stage
one, borderline elevated, normal), and when either reading is absent the
synthetic `bp` item has status `unknown`. -/
theorem C3_bp_decision_table :
    (∀ s d : ℚ,
      ((bp_status s d).1 = "critical" ↔ (s ≥ 180 ∨ d ≥ 120)) ∧
      ((bp_status s d).1 = "high" ↔ (¬(s ≥ 180 ∨ d ≥ 120) ∧ (s ≥ 140 ∨ d ≥ 90))) ∧
      ((bp_status s d).1 = "borderline" ↔
        (¬(s ≥ 180 ∨ d ≥ 120) ∧ ¬(s ≥ 140 ∨ d ≥ 90) ∧
          (((130 ≤ s ∧ s ≤ 139) ∨ (80 ≤ d ∧ d ≤ 89)) ∨ ((120 ≤ s ∧ s ≤ 129) ∧ d < 80)))) ∧
      ((bp_status s d).1 = "normal" ↔
        (¬(s ≥ 180 ∨ d ≥ 120) ∧ ¬(s ≥ 140 ∨ d ≥ 90) ∧
          ¬((130 ≤ s ∧ s ≤ 139) ∨ (80 ≤ d ∧ d ≤ 89)) ∧ ¬((120 ≤ s ∧ s ≤ 129) ∧ d < 80)))) ∧
    (∀ labs : String → Option LabInput,
      ((labs "sbp").getD {}).value = none ∨ ((labs "dbp").getD {}).value = none →
        (bp_item labs).status = "unknown") := by
  constructor
  · intro s d
    unfold bp_status
    split_ifs with h1 h2 h3 h4 <;> refine ⟨?_, ?_, ?_, ?_⟩ <;> simp_all
  · intro labs h
    unfold bp_item
    rcases h with h | h
    · rw [h]
    · cases hs : ((labs "sbp").getD {}).value with
      | none => rfl
      | some s => rw [h]

/-- Witness for C3: (185, 70) classifies as critical, and with no readings
the synthetic `bp` item is unknown. -/
theorem C3_bp_decision_table_witness :
    (bp_status 185 70).1 = "critical" ∧
    (bp_item (fun _ => none)).status = "unknown" := by
  have h := C3_bp_decision_table
  exact ⟨(h.1 185 70).1.mpr (by norm_num), h.2 (fun _ => none) (Or.inl rfl)⟩

/-- Claim C4: `make_report` partitions results into critical / high /
borderline-or-low buckets and emits the summary sections in fixed order
with empty sections omitted, falling back to the single reassuring line
when all buckets are empty; the disclaimer is always the same three fixed
lines, and the person is echoed unchanged. -/
theorem C4_report_aggregation (p : Person) (results : List ItemResult) :
    (make_report p results).summary = summarySpec results ∧
    (make_report p results).disclaimer =
      ["이 결과는 **의료행위(진단/처방)**가 아니라, 입력된 수치/참고치 기반 **정보 제공용 설명**입니다.",
       "증상이 있거나 수치가 걱정되면 **의료진과 상담**하세요.",
       "검사기관/개인 상태에 따라 참고치와 해석이 달라질 수 있습니다."] ∧
    (make_report p results).person = p := by
  refine ⟨?_, rfl, rfl⟩
  unfold make_report summarySpec sectionLines
  dsimp only
  by_cases h1 : (results.filter fun r => r.status = "critical").isEmpty <;>
    by_cases h2 : (results.filter fun r => r.status = "high").isEmpty <;>
      by_cases h3 :
          (results.filter fun r => r.status = "borderline" ∨ r.status = "low").isEmpty <;>
        simp_all

/-- Claim C5: `RefRange.classify` is total — for every value and every
combination of present/absent bounds it returns exactly one of `low`,
`high`, `normal`, `unknown`; it follows the rule (value below a present low
bound is `low`, else value above a present high bound is `high`, else
`unknown` exactly when both bounds are absent, else `normal`); and
`unknown` occurs iff both bounds are absent. -/
theorem C5_classify_total (r : RefRange) (v : ℚ) :
    (r.classify v = "low" ∨ r.classify v = "high" ∨
      r.classify v = "normal" ∨ r.classify v = "unknown") ∧
    (r.classify v = "unknown" ↔ (r.low = none ∧ r.high = none)) ∧
    (∀ lo, r.low = some lo → v < lo → r.classify v = "low") ∧
    (∀ hi, r.high = some hi → (∀ lo, r.low = some lo → ¬ v < lo) → v > hi →
      r.classify v = "high") ∧
    ((r.low ≠ none ∨ r.high ≠ none) → (∀ lo, r.low = some lo → ¬ v < lo) →
      (∀ hi, r.high = some hi → ¬ v > hi) → r.classify v = "normal") := by
  rcases r with ⟨lo, hi, un⟩
  cases lo <;> cases hi <;> simp [RefRange.classify] <;> split_ifs <;> simp_all

/-- Witness for C5: value 50 against range 70-99 is `low` (via the rule
conjunct), and a range with both bounds absent is `unknown` (via the iff). -/
theorem C5_classify_total_witness :
    RefRange.classify { low := some 70, high := some 99, unit := "mg/dL" } 50 = "low" ∧
    RefRange.classify { low := none, high := none, unit := "" } 50 = "unknown" := by
  refine ⟨?_, ?_⟩
  · exact (C5_classify_total { low := some 70, high := some 99, unit := "mg/dL" } 50).2.2.1
      70 rfl (by norm_num)
  · exact (C5_classify_total { low := none, high := none, unit := "" } 50).2.1.mpr ⟨rfl, rfl⟩

/-- Claim C6: the fasting-glucose status ladder is applied most-severe-first
over the baseline range classification: `v ≥ 126` high, `100 ≤ v ≤ 125`
borderline, `v < 70` low, otherwise the baseline classification stands. -/
theorem C6_fasting_glucose_ladder (li : LabInput) (v : ℚ) (p : Person)
    (hv : li.value = some v) :
    (classify_item "fasting_glucose" li p).status =
      (if v ≥ 126 then "high" else if 100 ≤ v ∧ v ≤ 125 then "borderline"
       else if v < 70 then "low"
       else (classify_with_ref v li (get_default_ref "fasting_glucose" p)).1) := by
  obtain ⟨val, rl, rh, u⟩ := li
  dsimp only at hv
  subst hv
  obtain ⟨ev, un, hd⟩ := classify_item_fg_dispatch rl rh u v p
  rw [hd, fg_status]

/-- Witness for C6 at the spec's sample points 126, 125, 100, 99 and 69
(default range 70-99, so the baseline result at 99 is `normal`). -/
theorem C6_fasting_glucose_ladder_witness :
    (classify_item "fasting_glucose" { value := some 126 } { age := 30, sex := "male" }).status = "high" ∧
    (classify_item "fasting_glucose" { value := some 125 } { age := 30, sex := "male" }).status = "borderline" ∧
    (classify_item "fasting_glucose" { value := some 100 } { age := 30, sex := "male" }).status = "borderline" ∧
    (classify_item "fasting_glucose" { value := some 99 } { age := 30, sex := "male" }).status = "normal" ∧
    (classify_item "fasting_glucose" { value := some 69 } { age := 30, sex := "male" }).status = "low" := by
  refine ⟨?_, ?_, ?_, ?_, ?_⟩
  · rw [C6_fasting_glucose_ladder { value := some 126 } 126 { age := 30, sex := "male" } rfl]
    norm_num
  · rw [C6_fasting_glucose_ladder { value := some 125 } 125 { age := 30, sex := "male" } rfl]
    norm_num
  · rw [C6_fasting_glucose_ladder { value := some 100 } 100 { age := 30, sex := "male" } rfl]
    norm_num
  · rw [C6_fasting_glucose_ladder { value := some 99 } 99 { age := 30, sex := "male" } rfl]
    norm_num
    decide
  · rw [C6_fasting_glucose_ladder { value := some 69 } 69 { age := 30, sex := "male" } rfl]
    norm_num

/-- Claim C7: merging a default range with user overrides is per-bound
independent — each effective bound is the user-supplied bound when present,
else the default bound; the effective unit is always the default's unit;
in particular overriding only the low bound leaves the high bound equal to
the default's high bound. -/
theorem C7_merge_per_bound (v : ℚ) (li : LabInput) (rr : RefRange) :
    ((classify_with_ref v li rr).2.low =
      match li.ref_low with | some x => some x | none => rr.low) ∧
    ((classify_with_ref v li rr).2.high =
      match li.ref_high with | some x => some x | none => rr.high) ∧
    ((classify_with_ref v li rr).2.unit = rr.unit) ∧
    (li.ref_low ≠ none → li.ref_high = none →
      (classify_with_ref v li rr).2.high = rr.high) := by
  obtain ⟨val, rl, rh, u⟩ := li
  refine ⟨rfl, rfl, rfl, ?_⟩
  intro _ h2
  dsimp only at h2
  subst h2
  rfl

/-- Witness for C7: overriding only the low bound keeps the default high
bound (applied at a concrete input). -/
theorem C7_merge_per_bound_witness :
    (classify_with_ref 5 { ref_low := some 10 }
      { low := some 1, high := some 2, unit := "u" }).2.high = some 2 :=
  (C7_merge_per_bound 5 { ref_low := some 10 }
    { low := some 1, high := some 2, unit := "u" }).2.2.2 (by simp) rfl

/-- Claim C8: every lab item with an absent input value yields an
`ItemResult` with status `unknown`, no numeric value, and the fixed
supply-the-number text; and for every known lab item key the classified
entry is present in `interpret`'s output (never dropped). -/
theorem C8_absent_value_unknown (key : String) (li : LabInput) (p : Person)
    (hv : li.value = none) :
    (classify_item key li p).status = "unknown" ∧
    (classify_item key li p).value = none ∧
    (classify_item key li p).short = "입력값이 없습니다." ∧
    (classify_item key li p).easy_explain = "수치가 있어야 해석할 수 있어요." ∧
    (classify_item key li p).next_steps = ["검진표의 해당 수치를 입력하세요."] ∧
    (∀ labs : String → Option LabInput, ∀ q : Person, key ∈ ITEM_KEYS →
      classify_item key ((labs key).getD {}) q ∈ interpret q labs) := by
  obtain ⟨val, rl, rh, u⟩ := li
  dsimp only at hv
  subst hv
  refine ⟨rfl, rfl, rfl, rfl, rfl, ?_⟩
  intro labs q hk
  unfold interpret
  exact List.mem_append_left _ (List.mem_map_of_mem _ hk)

/-- Witness for C8: an empty `LabInput` for `ldl` yields an unknown result
with no value, and the `ldl` entry is present in the output of `interpret`
on an empty labs mapping. -/
theorem C8_absent_value_unknown_witness :
    (classify_item "ldl" {} { age := 50, sex := "female" }).status = "unknown" ∧
    (classify_item "ldl" {} { age := 50, sex := "female" }).value = none ∧
    classify_item "ldl" (((fun _ => none : String → Option LabInput) "ldl").getD {})
      { age := 50, sex := "female" } ∈
      interpret { age := 50, sex := "female" } (fun _ => none) := by
  have h := C8_absent_value_unknown "ldl" {} { age := 50, sex := "female" } rfl
  exact ⟨h.1, h.2.1, h.2.2.2.2.2 (fun _ => none) { age := 50, sex := "female" } (by simp [ITEM_KEYS])⟩

/-- Claim C9: for every person and labs mapping, `interpret` returns exactly
one entry per known lab item key plus one synthetic `bp` entry, in the
fixed key order with `bp` last; the known-key list is `LAB_KEYS` minus the
two raw blood-pressure reading keys, in the same order. -/
theorem C9_interpret_key_order (p : Person) (labs : String → Option LabInput) :
    (interpret p labs).map ItemResult.key = ITEM_KEYS ++ ["bp"] ∧
    LAB_KEYS = ITEM_KEYS ++ ["sbp", "dbp"] :=
  ⟨interpret_keys p labs, rfl⟩

/-- Claim C10: the synthetic `bp` item is always the last entry of
`interpret`'s output, always carries value `None` and unit `mmHg` (even
when both readings are present), and its value renders as `-`. -/
theorem C10_bp_value_always_none (p : Person) (labs : String → Option LabInput) :
    (interpret p labs).getLast? = some (bp_item labs) ∧
    (bp_item labs).value = none ∧
    (bp_item labs).unit = "mmHg" ∧
    fmt (bp_item labs).value = "-" := by
  refine ⟨interpret_getLast p labs, bp_item_value labs, bp_item_unit labs, ?_⟩
  rw [bp_item_value]
  rfl
